import Mathlib

/-!
Verification of the ts_ess_controller environmental-sensor controller.

This file gives a shallow embedding, in Lean 4, of the parts of the
repository that the verified properties talk about:

* the per-sensor telemetry decoders
  (`python/lsst/ts/ess/controller/sensor/temperature_sensor.py`,
  `python/lsst/ts/ess/sensors/sensor/wind_sensor.py`),
* the command handler state machine
  (`python/lsst/ts/envsensors/command_handler.py`),
* the socket-server read loop (`python/lsst/ts/envsensors/socket_server.py`),
* the device acquisition step
  (`python/lsst/ts/ess/controller/device/base_device.py`),
* the SPS30 reply validation
  (`python/lsst/ts/ess/controller/device/sensirion_sps30.py`),
* the configuration JSON schema
  (`python/lsst/ts/ess/controller/schema/config_jschema.py`).

Numbers produced by decoders are modelled as exact rationals: every value the
sensors emit is a finite decimal string, so Python float parsing is modelled
by exact decimal parsing into `ℚ`, with an explicit `nan` constructor for the
not-a-number sentinel results.  Fallible Python code (raising `ValueError` or
`KeyError`) is modelled with `Except`/`Option`.
-/

/-- A telemetry value: either NaN (disconnected / missing channel) or a
number, modelled as an exact rational. -/
inductive Val where
  | nan : Val
  | num : ℚ → Val
deriving DecidableEq, Repr

/-- Python `str.strip(chars)` on a character list: remove characters that are
members of `chars` from both ends of the string. -/
def pyStrip (chars : List Char) (s : List Char) : List Char :=
  ((s.dropWhile (· ∈ chars)).reverse.dropWhile (· ∈ chars)).reverse

/-- Python `str.split(sep)` for a single-character separator `sep`.  The
result is never empty; an empty input yields `[[]]`, like Python. -/
def pySplit (sep : Char) : List Char → List (List Char)
  | [] => [[]]
  | c :: cs =>
    let r := pySplit sep cs
    if c = sep then [] :: r
    else
      match r with
      | [] => [[c]]
      | g :: gs => (c :: g) :: gs

/-- Numeric value of a list of decimal digit characters, most significant
first (the value computed by Python `int` on a digit string). -/
def digitsVal (cs : List Char) : ℕ :=
  cs.foldl (fun a c => 10 * a + (c.toNat - 48)) 0

/-- Python `float` on an unsigned decimal string: an integer part and an
optional fractional part after a dot, with at least one digit overall.
Exponent notation and the inf/nan words never occur in sensor data and are
not modelled. -/
def parseUnsignedDecimal (cs : List Char) : Option ℚ :=
  let intPart := cs.takeWhile Char.isDigit
  let rest := cs.dropWhile Char.isDigit
  if rest = [] then
    if intPart = [] then none else some (digitsVal intPart : ℚ)
  else if rest.head? = some '.' ∧ (rest.drop 1).all Char.isDigit then
    if intPart = [] ∧ rest.drop 1 = [] then none
    else
      some ((digitsVal intPart : ℚ) +
        (digitsVal (rest.drop 1) : ℚ) / (10 : ℚ) ^ (rest.drop 1).length)
  else none

/-- Python `float(s)`: strip whitespace, handle an optional sign, then parse
an unsigned decimal.  Returns `none` where Python raises `ValueError`. -/
def parsePyFloat (cs0 : List Char) : Option ℚ :=
  let cs := (cs0.dropWhile Char.isWhitespace).reverse.dropWhile
    Char.isWhitespace |>.reverse
  match cs with
  | [] => none
  | c :: rest =>
    if c = '+' then parseUnsignedDecimal rest
    else if c = '-' then (parseUnsignedDecimal rest).map Neg.neg
    else parseUnsignedDecimal (c :: rest)

/-- The value emitted by a disconnected channel
(`DISCONNECTED_VALUE` in `envsensors/constants.py`). -/
def DISCONNECTED_VALUE : List Char := "9999.9990".data

/-- The default sensor line terminator `"\r\n"` (`BaseSensor.terminator`). -/
def TERMINATOR : List Char := ['\r', '\n']

/-- Loop body of `TemperatureSensor.extract_telemetry`
(`controller/sensor/temperature_sensor.py` lines 88-101): for each
comma-separated item, split on `=`; one part appends NaN, two parts append
NaN for the disconnected sentinel and the parsed float otherwise, and more
parts raise `ValueError`.  A `float` parse failure also raises. -/
def tempLoop : List (List Char) → List Val → Except String (List Val)
  | [], output => .ok output
  | item :: rest, output =>
    let ts := pySplit '=' item
    if ts.length = 1 then tempLoop rest (output ++ [Val.nan])
    else if ts.length = 2 then
      if ts.getD 1 [] = DISCONNECTED_VALUE then tempLoop rest (output ++ [Val.nan])
      else
        match parsePyFloat (ts.getD 1 []) with
        | some q => tempLoop rest (output ++ [Val.num q])
        | none => .error "could not convert string to float"
    else .error "At most one = symbol expected in temperature item"

/-- The padding loop of `extract_telemetry` (lines 107-108): while the output
is shorter than the channel count, insert NaN at the front.  Written in
closed form: the loop prepends `n - output.length` NaN values. -/
def padNan (n : ℕ) (output : List Val) : List Val :=
  List.replicate (n - output.length) Val.nan ++ output

/-- `TemperatureSensor.extract_telemetry`
(`controller/sensor/temperature_sensor.py` lines 67-109): strip the
terminator characters, split on the delimiter, decode each item, pad with
leading NaN values up to the channel count. -/
def extractTelemetryTemperature (numChannels : ℕ) (line : List Char) :
    Except String (List Val) :=
  let strippedLine := pyStrip TERMINATOR line
  let lineItems := pySplit ',' strippedLine
  (tempLoop lineItems []).map (padNan numChannels)

/-- Decoding of one temperature field as the specification describes it:
split on `=`; no `=` gives NaN; exactly one `=` gives NaN for the sentinel
value `"9999.9990"` and the parsed float otherwise; more than one `=` is a
decode error. -/
def decodeTemperatureField (item : List Char) : Except String Val :=
  match pySplit '=' item with
  | [_] => .ok Val.nan
  | [_, v] =>
    if v = DISCONNECTED_VALUE then .ok Val.nan
    else
      match parsePyFloat v with
      | some q => .ok (Val.num q)
      | none => .error "could not convert string to float"
  | _ => .error "At most one = symbol expected in temperature item"

/-- Mapping of the field decoder over all fields of a line, stopping at the
first decode error. -/
def decodeTemperatureFields : List (List Char) → Except String (List Val)
  | [] => .ok []
  | item :: rest => do
    let v ← decodeTemperatureField item
    let vs ← decodeTemperatureFields rest
    .ok (v :: vs)

/-! ## Wind sensor (`ess/sensors/sensor/wind_sensor.py`)

The wind decoder matches a line against the compiled regex

  `^\x02Q,(\d{3})?,(\d{3}\.\d{2}),M,(\d{2}),\x03([0-9a-fA-F]{2})\r\n$`

(`WindSensor.__init__`).  The regex is embedded as a deterministic
recognizer of exactly that language; note that Python `$` also matches just
before one final newline, so a line consisting of a full frame followed by a
single extra `\n` also matches. -/

/-- The ASCII start character `STX` (`START_CHARACTER`). -/
def STX : Char := '\x02'

/-- The ASCII end character `ETX` (`END_CHARACTER`). -/
def ETX : Char := '\x03'

/-- One character of the regex class `[0-9a-fA-F]`. -/
def isHexDigit (c : Char) : Bool :=
  c.isDigit || ('a' ≤ c && c ≤ 'f') || ('A' ≤ c && c ≤ 'F')

/-- The named groups captured by the wind telemetry regex: direction (empty
when the optional group did not participate), speed, status and checksum. -/
structure WindM where
  dir : List Char
  speed : List Char
  status : List Char
  csum : List Char
deriving DecidableEq, Repr

/-- Recognizer for the tail of the wind regex after the speed group:
`M,(\d{2}),\x03([0-9a-fA-F]{2})\r\n$`. -/
def windParseTail (dir speed : List Char) : List Char → Option WindM
  | a :: b :: t1 :: t2 :: e :: f :: c1 :: c2 :: g :: h :: tail =>
    if a = 'M' ∧ b = ',' ∧ t1.isDigit ∧ t2.isDigit ∧ e = ',' ∧ f = '\x03' ∧
        isHexDigit c1 ∧ isHexDigit c2 ∧ g = '\r' ∧ h = '\n' ∧
        (tail = [] ∨ tail = ['\n']) then
      some ⟨dir, speed, [t1, t2], [c1, c2]⟩
    else none
  | _ => none

/-- Recognizer for the speed group `(\d{3}\.\d{2}),` and the rest. -/
def windParseSpeed (dir : List Char) : List Char → Option WindM
  | s1 :: s2 :: s3 :: d :: s4 :: s5 :: c :: rest =>
    if s1.isDigit ∧ s2.isDigit ∧ s3.isDigit ∧ d = '.' ∧ s4.isDigit ∧ s5.isDigit ∧
        c = ',' then
      windParseTail dir [s1, s2, s3, '.', s4, s5] rest
    else none
  | _ => none

/-- Recognizer for the optional direction group `(\d{3})?,` and the rest.
The two alternatives are distinguished by the first character (a comma never
is a digit), exactly as the backtracking regex engine resolves them. -/
def windParseDir : List Char → Option WindM
  | d1 :: rest =>
    if d1 = ',' then windParseSpeed [] rest
    else
      match rest with
      | d2 :: d3 :: c :: rest2 =>
        if d1.isDigit ∧ d2.isDigit ∧ d3.isDigit ∧ c = ',' then
          windParseSpeed [d1, d2, d3] rest2
        else none
      | _ => none
  | [] => none

/-- Recognizer for the full wind telemetry regex. -/
def windParse : List Char → Option WindM
  | a :: b :: c :: rest =>
    if a = '\x02' ∧ b = 'Q' ∧ c = ',' then windParseDir rest else none
  | _ => none

/-- Numeric value of one hexadecimal digit character. -/
def hexDigitVal (c : Char) : ℕ :=
  if c.isDigit then c.toNat - 48
  else if 'a' ≤ c ∧ c ≤ 'f' then c.toNat - 87
  else c.toNat - 55

/-- Python `int(s, 16)` on a string of hexadecimal digit characters. -/
def hexVal (cs : List Char) : ℕ :=
  cs.foldl (fun a c => 16 * a + hexDigitVal c) 0

/-- XOR of the character codes of a string, starting from 0: the checksum
loop `for i in checksum_string: checksum ^= ord(i)`. -/
def xorChars (cs : List Char) : ℕ :=
  cs.foldl (fun a c => a ^^^ c.toNat) 0

/-- The wind direction sentinel (`DEFAULT_DIRECTION_VAL`). -/
def DEFAULT_DIRECTION_VAL : List Char := "999".data

/-- The wind speed sentinel (`DEFAULT_SPEED_VAL`). -/
def DEFAULT_SPEED_VAL : List Char := "9999.9990".data

/-- `WindSensor.extract_telemetry` (`ess/sensors/sensor/wind_sensor.py`
lines 113-152).  On a regex match, rebuild the checksum string
`Q,{direction},{speed},M,{status},`, XOR its characters and compare with the
parsed hexadecimal checksum: on mismatch return `[nan, nan]`, otherwise
decode speed and direction with their sentinel rules.  A line equal to the
bare terminator returns `[nan, nan]`; any other non-matching line raises
`ValueError`. -/
def extractTelemetryWind (line : List Char) : Except String (List Val) :=
  match windParse line with
  | some m =>
    let checksumString :=
      'Q' :: ',' :: m.dir ++ [','] ++ m.speed ++ [',', 'M', ','] ++ m.status ++ [',']
    let checksum := xorChars checksumString
    let checksumVal := hexVal m.csum
    if checksum ≠ checksumVal then .ok [Val.nan, Val.nan]
    else
      let direction : Val :=
        if m.dir = DEFAULT_DIRECTION_VAL ∨ m.dir = [] then Val.nan
        else Val.num (digitsVal m.dir : ℚ)
      if m.speed = DEFAULT_SPEED_VAL then .ok [Val.nan, direction]
      else
        match parsePyFloat m.speed with
        | some q => .ok [Val.num q, direction]
        | none => .error "could not convert string to float"
  | none =>
    if line = TERMINATOR then .ok [Val.nan, Val.nan]
    else .error "Received an unparsable line"

/-- The character string of a full wind frame
`<STX>Q,{dir},{speed},M,{status},<ETX>{csum}\r\n` built from the captured
groups. -/
def windFrameChars (m : WindM) : List Char :=
  '\x02' :: 'Q' :: ',' :: m.dir ++ [','] ++ m.speed ++ [',', 'M', ','] ++ m.status ++
    [','] ++ '\x03' :: m.csum ++ ['\r', '\n']

/-- Well-formedness of the captured groups: the direction is empty or three
digits, the speed is `\d{3}\.\d{2}`, the status two digits and the checksum
two hexadecimal digits. -/
def WindWF (m : WindM) : Prop :=
  (m.dir = [] ∨ ∃ d1 d2 d3, m.dir = [d1, d2, d3] ∧
    d1.isDigit ∧ d2.isDigit ∧ d3.isDigit) ∧
  (∃ s1 s2 s3 s4 s5, m.speed = [s1, s2, s3, '.', s4, s5] ∧
    s1.isDigit ∧ s2.isDigit ∧ s3.isDigit ∧ s4.isDigit ∧ s5.isDigit) ∧
  (∃ t1 t2, m.status = [t1, t2] ∧ t1.isDigit ∧ t2.isDigit) ∧
  (∃ c1 c2, m.csum = [c1, c2] ∧ isHexDigit c1 ∧ isHexDigit c2)

/-- A line matches the wind telemetry regex when it is a well-formed frame,
optionally followed by one extra newline (which Python `$` tolerates). -/
def WindMatches (line : List Char) : Prop :=
  ∃ m, WindWF m ∧ (line = windFrameChars m ∨ line = windFrameChars m ++ ['\n'])

/-- The characters of a line strictly between the `STX` character and the
first following `ETX` character: the region the specification says the
checksum is computed over. -/
def betweenStxEtx (line : List Char) : List Char :=
  ((line.dropWhile (· ≠ STX)).drop 1).takeWhile (· ≠ ETX)

/-! ## Command handler (`envsensors/command_handler.py`)

Configurations arrive as JSON dicts.  A device configuration dict is
modelled as a record of optional values for the keys the validator inspects;
a key is present exactly when the field is `some`.  The top-level dict is
modelled by the optional `devices` value plus the number of other keys. -/

/-- The response codes (modelled from the spec: `response_code.py` is not
under `src/`; section 6 fixes the value set `OK, ALREADY_STARTED,
NOT_CONFIGURED, NOT_STARTED, INVALID_CONFIGURATION, DEVICE_READ_ERROR`). -/
inductive ResponseCode where
  | ok
  | alreadyStarted
  | notConfigured
  | notStarted
  | invalidConfiguration
  | deviceReadError
deriving DecidableEq, Repr

/-- A raised `CommandError` (modelled from the spec and from its uses in
`command_handler.py`: `command_error.py` is not under `src/`; the exception
carries a message and a response code). -/
structure CommandError where
  msg : String
  response_code : ResponseCode
deriving DecidableEq, Repr

/-- A device configuration dict restricted to the keys the validator and the
device factory read.  A field is `some` exactly when the key is present. -/
structure DeviceCfg where
  name : Option String
  channels : Option ℤ
  device_type : Option String
  sensor_type : Option String
  ftdi_id : Option String
  serial_port : Option String
deriving DecidableEq, Repr

/-- The top-level configuration dict: the optional value of the `devices`
key and the number of keys other than `devices`. -/
structure ConfigDict where
  devices : Option (List DeviceCfg)
  numOtherKeys : ℕ
deriving DecidableEq, Repr

/-- `CommandHandler._validate_device_configuration` (lines 154-216): check
the required keys `name`, `channels`, `device_type`, `sensor_type`, the
`device_type` and `sensor_type` value sets, and the conditionally required
`ftdi_id` / `serial_port` keys, in source order. -/
def validateDeviceConfiguration (d : DeviceCfg) : Except CommandError Unit :=
  if d.name.isNone ∨ d.channels.isNone ∨ d.device_type.isNone ∨ d.sensor_type.isNone then
    .error ⟨"Missing required configuration keys", .invalidConfiguration⟩
  else if d.device_type ≠ some "FTDI" ∧ d.device_type ≠ some "Serial" then
    .error ⟨"The value for key device_type must be either FTDI or Serial",
      .invalidConfiguration⟩
  else if d.sensor_type ≠ some "Temperature" ∧ d.sensor_type ≠ some "Wind" then
    .error ⟨"The value for key sensor_type must be Temperature or Wind",
      .invalidConfiguration⟩
  else if d.device_type = some "FTDI" ∧ d.ftdi_id.isNone then
    .error ⟨"Missing configuration key ftdi_id for device of type FTDI",
      .invalidConfiguration⟩
  else if d.device_type = some "Serial" ∧ d.serial_port.isNone then
    .error ⟨"Missing configuration key serial_port for device of type Serial",
      .invalidConfiguration⟩
  else .ok ()

/-- Validation of each device configuration in turn, stopping at the first
raised error (the `for` loop of `_validate_configuration`, lines 149-152). -/
def validateDevices : List DeviceCfg → Except CommandError Unit
  | [] => .ok ()
  | d :: ds => do
    validateDeviceConfiguration d
    validateDevices ds

/-- `CommandHandler._validate_configuration` (lines 115-152): `devices` must
be present and the only key, its list must be non-empty, and every entry
must validate. -/
def validateConfiguration (c : ConfigDict) : Except CommandError Unit :=
  match c.devices with
  | none => .error ⟨"Missing configuration key devices", .invalidConfiguration⟩
  | some devs =>
    if c.numOtherKeys ≠ 0 then
      .error ⟨"Expected one configuration key", .invalidConfiguration⟩
    else if devs = [] then
      .error ⟨"The configuration data for key devices is missing",
        .invalidConfiguration⟩
    else validateDevices devs

/-- The handler state: the stored configuration, the started flag and the
list of created devices (by name). -/
structure HandlerState where
  configuration : Option ConfigDict
  started : Bool
  devices : List String
deriving DecidableEq, Repr

/-- Device lifecycle events observable from the handler: a device is opened
(`device.start()`) or closed (`device.stop()`). -/
inductive DeviceEvent where
  | opened : String → DeviceEvent
  | closed : String → DeviceEvent
deriving DecidableEq, Repr

/-- `CommandHandler.configure` (lines 218-242): raise `ALREADY_STARTED` when
the telemetry loop is running, otherwise validate and store the
configuration. -/
def configure (cfg : ConfigDict) (s : HandlerState) :
    Except CommandError (HandlerState × List DeviceEvent) :=
  if s.started then
    .error ⟨"Ignoring the configuration because telemetry loop already running",
      .alreadyStarted⟩
  else do
    validateConfiguration cfg
    .ok ({ s with configuration := some cfg }, [])

/-- `CommandHandler.connect_devices` (lines 263-271) on its success path:
reset the device list, then create and start a device for every configured
entry.  This projection abstracts device construction as non-raising; the
full model with the `KeyError`/`RuntimeError` raise paths of `_get_device`
is `connectLoop`/`startSendingTelemetryFull` below, and
`start_full_agrees` proves this projection coincides with the full model
whenever every device constructs. -/
def connectDevices (cfg : ConfigDict) (s : HandlerState) :
    HandlerState × List DeviceEvent :=
  let names := (cfg.devices.getD []).map (fun d => d.name.getD "")
  ({ s with devices := names }, names.map DeviceEvent.opened)

/-- `CommandHandler.start_sending_telemetry` (lines 244-261): raise
`NOT_CONFIGURED` when no configuration is stored, otherwise connect the
devices and set the started flag.  There is no started-state check. -/
def startSendingTelemetry (s : HandlerState) :
    Except CommandError (HandlerState × List DeviceEvent) :=
  match s.configuration with
  | none =>
    .error ⟨"No configuration has been received yet. Ignoring start command.",
      .notConfigured⟩
  | some cfg =>
    let (s1, evs) := connectDevices cfg s
    .ok ({ s1 with started := true }, evs)

/-- `CommandHandler.stop_sending_telemetry` (lines 273-293): raise
`NOT_STARTED` when not started, otherwise clear the started flag and stop
every device, popping from the end of the list. -/
def stopSendingTelemetry (s : HandlerState) :
    Except CommandError (HandlerState × List DeviceEvent) :=
  if ¬s.started then
    .error ⟨"Not started yet. Ignoring stop command.", .notStarted⟩
  else
    .ok ({ s with started := false, devices := [] },
      s.devices.reverse.map DeviceEvent.closed)

/-- The commands in the handler dispatch dict. -/
inductive Cmd where
  | configure : ConfigDict → Cmd
  | start : Cmd
  | stop : Cmd
deriving DecidableEq, Repr

/-- The coroutine the dispatch dict selects for a command. -/
def dispatch : Cmd → HandlerState → Except CommandError (HandlerState × List DeviceEvent)
  | .configure cfg => configure cfg
  | .start => startSendingTelemetry
  | .stop => stopSendingTelemetry

/-- `CommandHandler.handle_command` (lines 95-113) for a command that is a
key of the dispatch dict: run the selected coroutine inside
`try/except CommandError` and call the reply callback exactly once, with
`OK` on success and with the response code of the caught error otherwise.
The third component collects the responses passed to the callback. -/
def handleCommand (c : Cmd) (s : HandlerState) :
    HandlerState × List DeviceEvent × List ResponseCode :=
  match dispatch c s with
  | .ok (s1, evs) => (s1, evs, [ResponseCode.ok])
  | .error e => (s, [], [e.response_code])

/-! ## Command handler with the device-construction raise paths

`connect_devices` calls `_get_device` (lines 295-357), which besides
creating devices can raise exceptions that are not `CommandError`:
a `KeyError` from a dict subscript for an absent key, and a `RuntimeError`
from the final `raise` when no branch returns a device.  `handle_command`
catches only `CommandError` (line 110), so these escape it and no response
is emitted for the command.  The behavior depends on the environment: the
simulation mode of the handler and whether the platform string contains
`aarch64`. -/

/-- An exception raised by a handler operation: the caught `CommandError`,
or the uncaught `KeyError` / `RuntimeError` of `_get_device` and
`_get_sensor`. -/
inductive PyErr where
  | commandError : CommandError → PyErr
  | keyError : PyErr
  | runtimeError : PyErr
deriving DecidableEq, Repr

/-- The environment `_get_device` inspects: the simulation mode passed to
the handler and whether `aarch64` occurs in `platform.platform()`. -/
structure Env where
  simulationMode : ℕ
  aarch64 : Bool
deriving DecidableEq, Repr

/-- A Python dict subscript `d[key]` on the typed model: the value when the
key is present, `KeyError` otherwise. -/
def dictGet {α : Type} (v : Option α) : Except PyErr α :=
  match v with
  | some x => .ok x
  | none => .error PyErr.keyError

/-- `CommandHandler._get_sensor` (lines 359-376): both sensor branches read
`device_configuration[Key.CHANNELS]`; any other sensor type raises
`RuntimeError`.  Returns the channel count the sensor is built with. -/
def getSensorE (d : DeviceCfg) : Except PyErr ℤ := do
  let st ← dictGet d.sensor_type
  if st = "Temperature" then dictGet d.channels
  else if st = "Wind" then dictGet d.channels
  else .error PyErr.runtimeError

/-- `CommandHandler._get_device` (lines 295-357): build the sensor, then in
simulation mode build a MockDevice reading `name` and `ftdi_id` — a
`KeyError` for a Serial entry, which has no `ftdi_id`; otherwise branch on
`device_type`: FTDI reads `name` and `ftdi_id`, Serial on an aarch64 host
reads `name` and `serial_port`, and every remaining path falls through to
`raise RuntimeError`.  Returns the device name. -/
def getDeviceE (env : Env) (d : DeviceCfg) : Except PyErr String := do
  let _ ← getSensorE d
  if env.simulationMode = 1 then do
    let nm ← dictGet d.name
    let _ ← dictGet d.ftdi_id
    pure nm
  else do
    let dt ← dictGet d.device_type
    if dt = "FTDI" then do
      let nm ← dictGet d.name
      let _ ← dictGet d.ftdi_id
      pure nm
    else if dt = "Serial" then
      if env.aarch64 then do
        let nm ← dictGet d.name
        let _ ← dictGet d.serial_port
        pure nm
      else .error PyErr.runtimeError
    else .error PyErr.runtimeError

/-- The `for` loop of `connect_devices` (lines 268-271): create and start
each device in turn; a raise leaves the devices created so far in the list
and propagates.  `device.start()` only spawns a task and never raises
synchronously. -/
def connectLoop (env : Env) : List DeviceCfg → List String → List DeviceEvent →
    List String × List DeviceEvent × Option PyErr
  | [], names, evs => (names, evs, none)
  | d :: rest, names, evs =>
    match getDeviceE env d with
    | .ok nm => connectLoop env rest (names ++ [nm]) (evs ++ [DeviceEvent.opened nm])
    | .error e => (names, evs, some e)

/-- `CommandHandler.start_sending_telemetry` with the raise paths of
`connect_devices`: `NOT_CONFIGURED` when no configuration is stored;
otherwise run the connect loop — on a raise the partially filled device
list is kept, `_started` stays false and the exception propagates; on
success the started flag is set. -/
def startSendingTelemetryFull (env : Env) (s : HandlerState) :
    HandlerState × List DeviceEvent × Option PyErr :=
  match s.configuration with
  | none =>
    (s, [], some (PyErr.commandError
      ⟨"No configuration has been received yet. Ignoring start command.",
        ResponseCode.notConfigured⟩))
  | some cfg =>
    let (names, evs, err) := connectLoop env (cfg.devices.getD []) [] []
    match err with
    | some e => ({ s with devices := names }, evs, some e)
    | none => ({ s with devices := names, started := true }, evs, none)

/-- The dispatched coroutine with its raised exception, if any: `configure`
and `stop` raise only `CommandError` (before mutating any state), `start`
may also propagate the device-construction exceptions. -/
def dispatchFull : Cmd → Env → HandlerState → HandlerState × List DeviceEvent × Option PyErr
  | .configure cfg, _, s =>
    (match configure cfg s with
     | .ok (s1, evs) => (s1, evs, none)
     | .error e => (s, [], some (PyErr.commandError e)))
  | .start, env, s => startSendingTelemetryFull env s
  | .stop, _, s =>
    (match stopSendingTelemetry s with
     | .ok (s1, evs) => (s1, evs, none)
     | .error e => (s, [], some (PyErr.commandError e)))

/-- `CommandHandler.handle_command` (lines 95-113) over the full model: the
`try/except CommandError` turns success into one OK reply and a raised
`CommandError` into one reply with its response code; any other exception
escapes before the callback runs, so no response is emitted for that
command. -/
def handleCommandFull (c : Cmd) (env : Env) (s : HandlerState) :
    HandlerState × List DeviceEvent × List ResponseCode × Option PyErr :=
  match dispatchFull c env s with
  | (s1, evs, none) => (s1, evs, [ResponseCode.ok], none)
  | (s1, evs, some (PyErr.commandError e)) => (s1, evs, [e.response_code], none)
  | (s1, evs, some e) => (s1, evs, [], some e)

/-- A valid Serial device entry: every required key is present and the
conditionally required `serial_port` too; `ftdi_id` is rightly absent. -/
def serialDeviceCfg : DeviceCfg :=
  ⟨some "S", some 1, some "Serial", some "Temperature", none, some "/dev/ttyUSB0"⟩

/-- The configuration holding only the Serial entry. -/
def serialConfig : ConfigDict := ⟨some [serialDeviceCfg], 0⟩

/-- The handler state after that configuration is accepted. -/
def serialConfiguredState : HandlerState := ⟨some serialConfig, false, []⟩

/-! ## Socket server read loop (`envsensors/socket_server.py`) -/

/-- A parsed incoming message: the `command` string and the optional
`configuration` parameter. -/
structure Incoming where
  command : String
  configuration : Option ConfigDict
deriving DecidableEq, Repr

/-- Lookup in `dispatch_dict` (lines 83-87): only `configure`, `start` and
`stop` are keys.  `handle_command` evaluates `self.dispatch_dict[command]`
before entering the `try` block, so an unknown command raises `KeyError`. -/
def dispatchKey (cmd : String) (cfgArg : Option ConfigDict) : Option Cmd :=
  if cmd = "configure" then some (Cmd.configure (cfgArg.getD ⟨none, 0⟩))
  else if cmd = "start" then some Cmd.start
  else if cmd = "stop" then some Cmd.stop
  else none

/-- `CommandHandler.handle_command` for an arbitrary command string: a
command that is not a dispatch key raises `KeyError` (the `Except.error`
case) before the reply callback is ever invoked. -/
def handleCommandAny (m : Incoming) (s : HandlerState) :
    Except Unit (HandlerState × List DeviceEvent × List ResponseCode) :=
  match dispatchKey m.command m.configuration with
  | some c => .ok (handleCommand c s)
  | none => .error ()

/-- How the read loop of the session ends. -/
inductive LoopOutcome where
  | running
  | exitCalled
  | aborted
deriving DecidableEq, Repr

/-- The observable result of running the read loop over a list of parsed
incoming messages. -/
structure LoopResult where
  responses : List ResponseCode
  events : List DeviceEvent
  state : HandlerState
  outcome : LoopOutcome
  peerClosed : Bool
deriving DecidableEq, Repr

/-- `SocketServer.read_loop` (lines 125-147) over a list of already parsed
messages: an `exit` command closes the writer and the server and the loop
ends; any other command goes to `handle_command`, and an exception escaping
it is caught by the outer `except Exception`, which logs and leaves the
loop without closing the peer, so the remaining messages are never
processed. -/
def readLoop : List Incoming → HandlerState → LoopResult
  | [], s => ⟨[], [], s, .running, false⟩
  | m :: ms, s =>
    if m.command = "exit" then ⟨[], [], s, .exitCalled, true⟩
    else
      match handleCommandAny m s with
      | .error () => ⟨[], [], s, .aborted, false⟩
      | .ok (s1, evs, rs) =>
        let r := readLoop ms s1
        ⟨rs ++ r.responses, evs ++ r.events, r.state, r.outcome, r.peerClosed⟩

/-! ## SPS30 reply validation (`controller/device/sensirion_sps30.py`) -/

/-- `compute_checksum` (lines 295-319): take the bytes from index 1 up to
but excluding the last two (`binary_data[1:-2]`), sum them modulo 256 and
subtract from 255. -/
def computeChecksum (binary_data : List ℕ) : ℕ :=
  let int_data := (binary_data.drop 1).dropLast.dropLast
  let lsb := int_data.sum % 256
  255 - lsb

/-- Decoding of an IEEE-754 big-endian 32-bit float from four byte values
(`struct.unpack(">f", …)`): NaN and the infinities become `nan`, every
other bit pattern denotes an exact rational. -/
def unpackFloat32 (b0 b1 b2 b3 : ℕ) : Val :=
  let bits := ((b0 % 256) * 16777216) + ((b1 % 256) * 65536) + ((b2 % 256) * 256) + b3 % 256
  let sign : ℤ := if bits / 2147483648 = 1 then -1 else 1
  let expo := (bits / 8388608) % 256
  let frac := bits % 8388608
  if expo = 255 then Val.nan
  else if expo = 0 then Val.num ((sign * frac : ℤ) / (2 : ℚ) ^ 149)
  else Val.num ((sign * (8388608 + frac) : ℤ) * (2 : ℚ) ^ expo / (2 : ℚ) ^ 150)

/-- `unpack_measured_values` (lines 322-355) up to the final rounding: a
40-byte payload is unpacked as ten big-endian 32-bit floats; any other
length yields ten NaN values.  The rounding of each value to one decimal is
a floating-point display concern and is not modelled. -/
def unpackMeasuredValues (binary_data : List ℕ) : List Val :=
  if binary_data.length ≠ 40 then List.replicate 10 Val.nan
  else
    (List.range 10).map fun i =>
      unpackFloat32 (binary_data.getD (4 * i) 0) (binary_data.getD (4 * i + 1) 0)
        (binary_data.getD (4 * i + 2) 0) (binary_data.getD (4 * i + 3) 0)

/-- The expected SPS30 reply length (`EXPECTED_DATA_LENGTH`). -/
def EXPECTED_DATA_LENGTH : ℕ := 47

/-- The checksum byte stored in a reply: `hex_reply[-2]`, the byte before
the final frame byte. -/
def storedChecksum (hex_reply : List ℕ) : ℕ :=
  hex_reply.getD (hex_reply.length - 2) 0

/-- `SensirionSps30.readline` validation (lines 438-454): a reply of the
wrong length or with a checksum different from `hex_reply[-2]` is discarded
(the emitted line stays empty); otherwise bytes 5 to 44 are unpacked as the
telemetry values.  The comma-separated text formatting of the accepted
values is elided: the accepted branch carries the values themselves. -/
def sps30Readline (hex_reply : List ℕ) : Option (List Val) :=
  if hex_reply.length ≠ EXPECTED_DATA_LENGTH then none
  else if computeChecksum hex_reply ≠ storedChecksum hex_reply then none
  else some (unpackMeasuredValues ((hex_reply.drop 5).take 40))

/-- Modelled from the spec: the SPS30 telemetry decoder lives in
ts_ess_common and is not under `src/`.  Universal rule 2 of section 4.5 and
the SPS30 rules fix its behavior on a discarded acquisition: an empty (or
terminator-only) line decodes to a NaN vector of the declared length 10. -/
def sps30DecodeLine (line : Option (List Val)) : List Val :=
  match line with
  | none => List.replicate 10 Val.nan
  | some vals => vals

/-- The ten values reported for one SPS30 acquisition cycle: the readline
validation followed by the decoder. -/
def sps30ReportedValues (hex_reply : List ℕ) : List Val :=
  sps30DecodeLine (sps30Readline hex_reply)

/-! ## Configuration JSON schema (`controller/schema/config_jschema.py`)

CONFIG_JSCHEMA is a draft-07 schema.  Its meaning on the typed configuration
model: the top-level object must have exactly the key `devices`
(`required` plus `additionalProperties: false`), whose array has at least
one entry; the `items` keyword is given in array (tuple) form with a single
schema, which in draft-07 constrains only the first array element.  In an
entry, `name`, `device_type` and `sensor_type` are required, the two type
keys are restricted to their enums, and each `if/then` clause of `allOf`
requires its key when the `if` schema succeeds — which it also does,
vacuously, when the inspected property is absent. -/

/-- The `if` schema `{properties: {sensor_type: {const: "Temperature"}}}`:
it fails only when the key is present with a different value. -/
def jsIfSensorType (d : DeviceCfg) (v : String) : Bool :=
  match d.sensor_type with
  | some w => w = v
  | none => true

/-- The `if` schema on `device_type`, same draft-07 semantics. -/
def jsIfDeviceType (d : DeviceCfg) (v : String) : Bool :=
  match d.device_type with
  | some w => w = v
  | none => true

/-- Validity of one device entry under the entry schema of CONFIG_JSCHEMA. -/
def jsEntryValid (d : DeviceCfg) : Bool :=
  d.name.isSome && d.device_type.isSome && d.sensor_type.isSome &&
  (match d.device_type with
   | some w => w = "FTDI" || w = "Serial"
   | none => true) &&
  (match d.sensor_type with
   | some w => w = "HX85A" || w = "HX85BA" || w = "Temperature" || w = "Wind"
   | none => true) &&
  (!jsIfSensorType d "Temperature" || d.channels.isSome) &&
  (!jsIfDeviceType d "FTDI" || d.ftdi_id.isSome) &&
  (!jsIfDeviceType d "Serial" || d.serial_port.isSome)

/-- Validity of a configuration under CONFIG_JSCHEMA: `devices` present and
the only key, at least one entry, and the first entry valid (tuple-form
`items` in draft-07 validates only the element at index 0). -/
def jsConfigValid (c : ConfigDict) : Bool :=
  (match c.devices with
   | none => false
   | some devs =>
     decide (devs ≠ []) &&
     (match devs with
      | [] => true
      | e :: _ => jsEntryValid e)) &&
  c.numOtherKeys = 0

/-- Modelled from the spec: the `configure` command path of the current
controller lives in `AbstractCommandHandler` (ts_ess_common, not under
`src/`).  Per the section 4.2 state table and section 6, a configure while
running is answered ALREADY_STARTED, an invalid payload
INVALID_CONFIGURATION, and a valid payload OK.  The schema itself is the
embedded CONFIG_JSCHEMA from `src/`. -/
def configureWithSchema (cfg : ConfigDict) (started : Bool) : ResponseCode :=
  if started then .alreadyStarted
  else if jsConfigValid cfg then .ok
  else .invalidConfiguration

/-! ## Device open (`controller/device/base_device.py` lines 77-94) -/

/-- The state of one device relevant to `open`: the `is_open` flag, how many
times `basic_open` has run and how many acquisition (`_run`) tasks have been
spawned. -/
structure DeviceOpenState where
  is_open : Bool
  basicOpenCount : ℕ
  spawnedTasks : ℕ
deriving DecidableEq, Repr

/-- `BaseDevice.open` (lines 77-94): when `is_open` is already true the
method only logs an error and then falls through — it still calls
`basic_open`, sets `is_open` and spawns another `_run` task, because the
early-exit the docstring announces is absent from the body. -/
def deviceOpen (s : DeviceOpenState) : DeviceOpenState :=
  { is_open := true
    basicOpenCount := s.basicOpenCount + 1
    spawnedTasks := s.spawnedTasks + 1 }

/-! ## Acquisition step (`controller/device/base_device.py` lines 101-134) -/

/-- One telemetry message delivered to the callback: the device name, the
response code and the decoded values (`[self.name, curr_tai, response,
*sensor_telemetry]`; the timestamp is not modelled). -/
structure TelemetryMsg where
  name : String
  response : ResponseCode
  values : List Val
deriving DecidableEq, Repr

/-- One iteration of `BaseDevice._run` for a device with a temperature
sensor: a readline exception is replaced by the bare terminator with
response `DEVICE_READ_ERROR`; the line is decoded and exactly one message
goes to the callback.  The decoder call is outside the `try`, so a decode
error propagates and no message is emitted for that iteration. -/
def runStepTemperature (name : String) (numChannels : ℕ)
    (readResult : Except Unit (List Char)) : Except String (List TelemetryMsg) :=
  let lr : List Char × ResponseCode :=
    match readResult with
    | .ok l => (l, ResponseCode.ok)
    | .error _ => (TERMINATOR, ResponseCode.deviceReadError)
  match extractTelemetryTemperature numChannels lr.1 with
  | .error e => .error e
  | .ok vals => .ok [⟨name, lr.2, vals⟩]

/-! ## Claim-side definitions and concrete instances -/

/-- The speed component the specification assigns to a matching frame with a
verified checksum: the parsed speed field (the speed sentinel
`"9999.9990"` cannot match the `\d{3}\.\d{2}` group, so only parsing
remains). -/
def windSpeedVal (m : WindM) : Val :=
  if m.speed = DEFAULT_SPEED_VAL then Val.nan
  else
    match parsePyFloat m.speed with
    | some q => Val.num q
    | none => Val.nan

/-- The direction component the specification assigns to a matching frame
with a verified checksum: NaN when the direction field is empty or equals
the sentinel `"999"`, the parsed integer otherwise. -/
def windDirVal (m : WindM) : Val :=
  if m.dir = DEFAULT_DIRECTION_VAL ∨ m.dir = [] then Val.nan
  else Val.num (digitsVal m.dir : ℚ)

/-- The captured groups of the concrete wind example: direction `"010"`,
speed `"015.00"`, status `"00"` and checksum `"1B"` (the XOR of
`Q,010,015.00,M,00,` is 27). -/
def windExampleM : WindM :=
  ⟨"010".data, "015.00".data, "00".data, "1B".data⟩

/-- A handler state in the Running state: a valid configuration with one
FTDI temperature device named `T` is stored, a start has succeeded. -/
def runningState : HandlerState :=
  { configuration :=
      some ⟨some [⟨some "T", some 4, some "FTDI", some "Temperature",
        some "ABC", none⟩], 0⟩
    started := true
    devices := ["T"] }

/-- A temperature line with three comma-separated fields, more than the two
configured channels of the counterexample device. -/
def threeFieldLine : List Char := "C00=0001.0000,C01=0002.0000,C02=0003.0000\r\n".data

/-- The device entry rules of CONFIG_JSCHEMA other than the `channels`
requirement: required keys present, enum membership, and the conditionally
required transport identifier. -/
def entryOtherRulesOK (d : DeviceCfg) : Prop :=
  d.name.isSome ∧
  (d.device_type = some "FTDI" ∨ d.device_type = some "Serial") ∧
  (d.sensor_type = some "HX85A" ∨ d.sensor_type = some "HX85BA" ∨
    d.sensor_type = some "Temperature" ∨ d.sensor_type = some "Wind") ∧
  (d.device_type = some "FTDI" → d.ftdi_id.isSome) ∧
  (d.device_type = some "Serial" → d.serial_port.isSome)

/-- A Wind device entry without a `channels` key. -/
def windEntryNoChannels : DeviceCfg :=
  ⟨some "W", none, some "Serial", some "Wind", none, some "/dev/ttyUSB0"⟩

/-! ## Theorems -/

/-- C1 as stated is false: the validly configured Serial entry is accepted
by configure (one OK reply), yet the following start command in simulation
mode emits zero responses — `_get_device` reads `ftdi_id`, absent from a
Serial entry, and the resulting `KeyError` is not a `CommandError`, so it
escapes `handle_command` before the callback runs. -/
theorem handle_command_no_reply_counterexample :
    validateConfiguration serialConfig = .ok () ∧
    handleCommandFull (Cmd.configure serialConfig) ⟨1, false⟩ ⟨none, false, []⟩ =
      (serialConfiguredState, [], [ResponseCode.ok], none) ∧
    (handleCommandFull Cmd.start ⟨1, false⟩ serialConfiguredState).2.2.1 = [] ∧
    (handleCommandFull Cmd.start ⟨1, false⟩ serialConfiguredState).2.2.2 =
      some PyErr.keyError ∧
    ([] : List ResponseCode).length ≠ 1 :=
  ⟨rfl, rfl, rfl, rfl, by decide⟩

/-- C1 amended: the reply callback is invoked exactly once — with OK on
success and with the response code of the raised `CommandError` otherwise —
for every command whose operation raises nothing but `CommandError`; a
`CommandError` itself never escapes, and configure and stop commands always
reply.  A start command whose device construction raises a
non-`CommandError` exception (a `KeyError` reading `ftdi_id` for a Serial
entry in simulation mode, a `RuntimeError` for a Serial device off aarch64)
escapes `handle_command` and no response at all is emitted for it. -/
theorem handle_command_replies_amended (c : Cmd) (env : Env) (s : HandlerState) :
    (∀ e : PyErr, (handleCommandFull c env s).2.2.2 = some e →
      (handleCommandFull c env s).2.2.1 = [] ∧
        ∀ ce : CommandError, e ≠ PyErr.commandError ce) ∧
    ((handleCommandFull c env s).2.2.2 = none →
      ∃ r : ResponseCode, (handleCommandFull c env s).2.2.1 = [r] ∧
        ((dispatchFull c env s).2.2 = none → r = ResponseCode.ok) ∧
        (∀ ce : CommandError,
          (dispatchFull c env s).2.2 = some (PyErr.commandError ce) →
            r = ce.response_code)) ∧
    (∀ cfg : ConfigDict,
      (handleCommandFull (Cmd.configure cfg) env s).2.2.2 = none) ∧
    (handleCommandFull Cmd.stop env s).2.2.2 = none := by
  refine ⟨?_, ?_, fun cfg => ?_, ?_⟩
  · intro e he
    rcases hd : dispatchFull c env s with ⟨s1, evs, _ | e1⟩
    · simp [handleCommandFull, hd] at he
    · rcases e1 with ce | _ | _ <;> simp [handleCommandFull, hd] at he ⊢ <;>
        simp [← he]
  · intro hnone
    rcases hd : dispatchFull c env s with ⟨s1, evs, _ | e1⟩
    · exact ⟨ResponseCode.ok, by simp [handleCommandFull, hd],
        fun _ => rfl, fun ce hce => by simp [hd] at hce⟩
    · rcases e1 with ce | _ | _
      · refine ⟨ce.response_code, by simp [handleCommandFull, hd],
          fun hno => ?_, fun ce2 hce2 => ?_⟩
        · simp [hd] at hno
        · simp [hd] at hce2
          rw [hce2]
      · simp [handleCommandFull, hd] at hnone
      · simp [handleCommandFull, hd] at hnone
  · rcases hc : configure cfg s with e | ⟨s1, evs⟩ <;>
      simp [handleCommandFull, dispatchFull, hc]
  · rcases hc : stopSendingTelemetry s with e | ⟨s1, evs⟩ <;>
      simp [handleCommandFull, dispatchFull, hc]

/-- Witness for C1 (amended): a start on an unconfigured handler replies
exactly once with NOT_CONFIGURED; the Serial-in-simulation start, whose
KeyError escapes, replies not at all. -/
theorem handle_command_replies_amended_witness :
    (handleCommandFull Cmd.start ⟨1, false⟩ ⟨none, false, []⟩).2.2.1 =
      [ResponseCode.notConfigured] ∧
    (handleCommandFull Cmd.start ⟨1, false⟩ serialConfiguredState).2.2.1 = [] := by
  constructor
  · obtain ⟨-, h2, -, -⟩ :=
      handle_command_replies_amended Cmd.start ⟨1, false⟩ ⟨none, false, []⟩
    obtain ⟨r, hr, -, h4⟩ := h2 rfl
    rw [hr, h4 ⟨"No configuration has been received yet. Ignoring start command.",
      ResponseCode.notConfigured⟩ rfl]
  · obtain ⟨h1, -, -, -⟩ :=
      handle_command_replies_amended Cmd.start ⟨1, false⟩ serialConfiguredState
    exact (h1 PyErr.keyError rfl).1

/-- When every configured entry constructs a device, the connect loop
succeeds and opens exactly the configured names in order. -/
theorem connectLoop_all_ok (env : Env) (ds : List DeviceCfg)
    (h : ∀ d ∈ ds, getDeviceE env d = .ok (d.name.getD "")) :
    ∀ (names : List String) (evs : List DeviceEvent),
      connectLoop env ds names evs =
        (names ++ ds.map (fun d => d.name.getD ""),
         evs ++ (ds.map (fun d => d.name.getD "")).map DeviceEvent.opened,
         none) := by
  induction ds with
  | nil =>
    intro names evs
    simp [connectLoop]
  | cons d rest ih =>
    intro names evs
    rw [connectLoop, h d (by simp)]
    simp [ih (fun d2 hd2 => h d2 (by simp [hd2]))]

/-- The success-path projection `startSendingTelemetry` agrees with the
full model whenever every configured entry constructs a device, which
justifies using the projection for properties about such states. -/
theorem start_full_agrees (env : Env) (s : HandlerState) (cfg : ConfigDict)
    (hc : s.configuration = some cfg)
    (hall : ∀ d ∈ cfg.devices.getD [], getDeviceE env d = .ok (d.name.getD "")) :
    startSendingTelemetryFull env s =
      (HandlerState.mk s.configuration true
        ((cfg.devices.getD []).map (fun d => d.name.getD "")),
       ((cfg.devices.getD []).map (fun d => d.name.getD "")).map DeviceEvent.opened,
       none) ∧
    startSendingTelemetry s =
      .ok (HandlerState.mk s.configuration true
        ((cfg.devices.getD []).map (fun d => d.name.getD "")),
       ((cfg.devices.getD []).map (fun d => d.name.getD "")).map DeviceEvent.opened) := by
  constructor
  · simp only [startSendingTelemetryFull, hc]
    rw [connectLoop_all_ok env _ hall [] []]
    simp
  · simp only [startSendingTelemetry, hc]
    simp [connectDevices]
    exact hc

/-- C2 as stated is false: in the Running state a second start command is
answered OK (not ALREADY_STARTED) and re-opens the configured device. -/
theorem start_while_running_counterexample :
    (handleCommand Cmd.start runningState).2.2 = [ResponseCode.ok] ∧
    (handleCommand Cmd.start runningState).2.1 = [DeviceEvent.opened "T"] ∧
    ResponseCode.ok ≠ ResponseCode.alreadyStarted :=
  ⟨rfl, rfl, by decide⟩

/-- C2 amended: when a configuration is stored (in particular in the Running
state) a start command re-runs `connect_devices`, re-opening every
configured device and replacing the device list, and is answered OK;
ALREADY_STARTED is the reply to a configure command while Running, not to a
start command. -/
theorem start_while_running_reconnects (s : HandlerState) (cfg : ConfigDict)
    (h : s.configuration = some cfg) :
    handleCommand Cmd.start s =
      (HandlerState.mk s.configuration true
          ((cfg.devices.getD []).map (fun d => d.name.getD "")),
        ((cfg.devices.getD []).map (fun d => d.name.getD "")).map DeviceEvent.opened,
        [ResponseCode.ok]) ∧
    (s.started = true → ∀ cfg2 : ConfigDict,
      (handleCommand (Cmd.configure cfg2) s).2.2 = [ResponseCode.alreadyStarted]) := by
  constructor
  · simp [handleCommand, dispatch, startSendingTelemetry, h, connectDevices]
  · intro hs cfg2
    simp [handleCommand, dispatch, configure, hs]

/-- Witness for C2 at the concrete Running state with one device `T`. -/
theorem start_while_running_reconnects_witness :
    handleCommand Cmd.start runningState =
      (runningState, [DeviceEvent.opened "T"], [ResponseCode.ok]) ∧
    (handleCommand (Cmd.configure ⟨none, 0⟩) runningState).2.2 =
      [ResponseCode.alreadyStarted] := by
  obtain ⟨h1, h2⟩ := start_while_running_reconnects runningState
    ⟨some [⟨some "T", some 4, some "FTDI", some "Temperature", some "ABC", none⟩], 0⟩ rfl
  exact ⟨h1, h2 rfl ⟨none, 0⟩⟩

/-- C8: evaluation of `BaseDevice.open` at the failing input.  A second
`open()` on an already open device runs `basic_open` again and spawns a
second acquisition task, although the docstring promises an early exit: the
body is missing the return after the `is_open` check. -/
theorem device_open_second_call_reopens :
    deviceOpen (deviceOpen ⟨false, 0, 0⟩) = ⟨true, 2, 2⟩ := rfl

/-- C10: a command string that is not a key of the dispatch dict (such as
`disconnect`) raises `KeyError` before the reply callback is invoked, so no
response object is emitted; the read loop catches the escaped exception and
terminates — later messages are never processed — without closing the
peer. -/
theorem unknown_command_no_reply_aborts_loop (m : Incoming) (s : HandlerState)
    (ms : List Incoming) (h1 : dispatchKey m.command m.configuration = none)
    (h2 : m.command ≠ "exit") :
    handleCommandAny m s = .error () ∧
    readLoop (m :: ms) s = ⟨[], [], s, .aborted, false⟩ := by
  refine ⟨by simp [handleCommandAny, h1], ?_⟩
  simp [readLoop, h2, handleCommandAny, h1]

/-- Witness for C10: the `disconnect` command on a fresh handler state. -/
theorem unknown_command_no_reply_aborts_loop_witness :
    readLoop [⟨"disconnect", none⟩] ⟨none, false, []⟩ =
      ⟨[], [], ⟨none, false, []⟩, .aborted, false⟩ :=
  (unknown_command_no_reply_aborts_loop ⟨"disconnect", none⟩ ⟨none, false, []⟩ []
    (by decide) (by decide)).2

/-- The slice `binary_data[1:-2]` written with `dropLast` equals the slice
written with `take`: the bytes from index 1 up to but excluding the last
two. -/
theorem dropLast_dropLast_drop_one (b : List ℕ) :
    (b.drop 1).dropLast.dropLast = (b.take (b.length - 2)).drop 1 := by
  rw [List.dropLast_eq_take, List.dropLast_eq_take, List.take_take,
    List.drop_take]
  simp only [List.length_take, List.length_drop]
  congr 1
  omega

/-- C6: the SPS30 checksum is 255 minus the sum, modulo 256, of the bytes
from index 1 up to but excluding the last two; a reply whose stored checksum
byte (`hex_reply[-2]`) differs from the computed value is discarded, so ten
NaN values are reported for that acquisition cycle. -/
theorem sps30_checksum_mismatch_discards :
    (∀ b : List ℕ, computeChecksum b =
      255 - ((b.take (b.length - 2)).drop 1).sum % 256) ∧
    (∀ reply : List ℕ, computeChecksum reply ≠ storedChecksum reply →
      sps30ReportedValues reply = List.replicate 10 Val.nan) := by
  constructor
  · intro b
    rw [computeChecksum, dropLast_dropLast_drop_one]
  · intro reply hne
    by_cases hl : reply.length ≠ EXPECTED_DATA_LENGTH
    · rw [sps30ReportedValues, sps30Readline, if_pos hl]
      rfl
    · rw [sps30ReportedValues, sps30Readline, if_neg hl, if_pos hne]
      rfl

/-- Witness for C6: a seven-byte reply whose computed checksum 252 differs
from the stored byte 99 is reported as ten NaN values. -/
theorem sps30_checksum_mismatch_discards_witness :
    computeChecksum [126, 0, 3, 0, 0, 99, 126] ≠
      storedChecksum [126, 0, 3, 0, 0, 99, 126] ∧
    sps30ReportedValues [126, 0, 3, 0, 0, 99, 126] = List.replicate 10 Val.nan := by
  have h : computeChecksum [126, 0, 3, 0, 0, 99, 126] ≠
      storedChecksum [126, 0, 3, 0, 0, 99, 126] := by decide
  exact ⟨h, sps30_checksum_mismatch_discards.2 _ h⟩

/-- C7: a device entry whose sensor_type is not Temperature and that
satisfies every other entry rule validates without a channels key, and a
configure command carrying it is answered OK; a Temperature entry without
channels is invalid, so only Temperature entries are required to carry
channels. -/
theorem channels_required_only_for_temperature :
    (∀ d : DeviceCfg, entryOtherRulesOK d → d.sensor_type ≠ some "Temperature" →
      d.channels = none → jsEntryValid d = true) ∧
    (∀ (d : DeviceCfg) (rest : List DeviceCfg), entryOtherRulesOK d →
      d.sensor_type ≠ some "Temperature" → d.channels = none →
      configureWithSchema ⟨some (d :: rest), 0⟩ false = ResponseCode.ok) ∧
    (∀ d : DeviceCfg, d.sensor_type = some "Temperature" → d.channels = none →
      jsEntryValid d = false) := by
  have h1 : ∀ d : DeviceCfg, entryOtherRulesOK d →
      d.sensor_type ≠ some "Temperature" → d.channels = none →
      jsEntryValid d = true := by
    intro d ⟨hname, hdt, hst, hftdi, hser⟩ hnt hch
    rcases hdt with hdt | hdt
    · rcases hst with hst | hst | hst | hst <;>
        first
          | exact absurd hst hnt
          | simp [jsEntryValid, jsIfSensorType, jsIfDeviceType, hname, hdt,
              hst, hftdi hdt]
    · rcases hst with hst | hst | hst | hst <;>
        first
          | exact absurd hst hnt
          | simp [jsEntryValid, jsIfSensorType, jsIfDeviceType, hname, hdt,
              hst, hser hdt]
  refine ⟨h1, fun d rest ho hnt hch => ?_, fun d hst hch => ?_⟩
  · rw [configureWithSchema, if_neg (by simp), jsConfigValid]
    simp [h1 d ho hnt hch]
  · simp [jsEntryValid, jsIfSensorType, hst, hch]


/-- Witness for C7: a Wind entry without channels is accepted, a Temperature
entry without channels is rejected. -/
theorem channels_required_only_for_temperature_witness :
    configureWithSchema ⟨some [windEntryNoChannels], 0⟩ false = ResponseCode.ok ∧
    jsEntryValid ⟨some "T", none, some "FTDI", some "Temperature", some "A", none⟩ =
      false := by
  have ho : entryOtherRulesOK windEntryNoChannels :=
    ⟨by decide, Or.inr rfl, Or.inr (Or.inr (Or.inr rfl)), by decide, by decide⟩
  refine ⟨channels_required_only_for_temperature.2.1 windEntryNoChannels []
    ho (by decide) rfl, ?_⟩
  exact channels_required_only_for_temperature.2.2
    ⟨some "T", none, some "FTDI", some "Temperature", some "A", none⟩ rfl rfl

/-- Unfolding of `tempLoop` as the mapping of the field decoder over the
items, relative to an accumulator. -/
theorem tempLoop_eq_decodeFields (items : List (List Char)) (acc : List Val) :
    tempLoop items acc = (decodeTemperatureFields items).map (acc ++ ·) := by
  induction items generalizing acc with
  | nil => simp [tempLoop, decodeTemperatureFields, Except.map]
  | cons item rest ih =>
    rw [tempLoop, decodeTemperatureFields]
    rcases hts : pySplit '=' item with _ | ⟨a, _ | ⟨b, _ | ⟨c, tl⟩⟩⟩
    · simp only [decodeTemperatureField, hts]
      rfl
    · simp only [decodeTemperatureField, hts, List.length_cons, List.length_nil]
      rcases hr : decodeTemperatureFields rest with e | vs <;>
        · simp only [if_pos rfl, ih, hr, Except.map, List.append_assoc,
            List.singleton_append]
          rfl
    · simp only [decodeTemperatureField, hts, List.length_cons, List.length_nil,
        List.getD, List.get?_cons_succ, List.get?_cons_zero, Option.getD_some]
      by_cases hd : b = DISCONNECTED_VALUE
      · rcases hr : decodeTemperatureFields rest with e | vs <;>
          · simp only [hd, if_pos rfl, ih, hr, Except.map, List.append_assoc,
              List.singleton_append]
            rfl
      · rcases hp : parsePyFloat b with _ | q
        · simp only [hd, hp, ih, Except.map]
          rfl
        · rcases hr : decodeTemperatureFields rest with e | vs <;>
            · simp only [hd, hp, ih, hr, Except.map, List.append_assoc,
                List.singleton_append]
              rfl
    · simp only [decodeTemperatureField, hts, List.length_cons]
      rfl

/-- C3: `extract_telemetry` strips the terminator, splits on the delimiter
and maps each field through the `=`-splitting decoder (no `=` gives NaN, one
`=` gives NaN for the sentinel and the parsed float otherwise, more than one
`=` raises), padding with leading NaN values up to the channel count; the
four-channel example line decodes to `[21.1234, 21.1220, NaN, 20.9990]`. -/
theorem temperature_extract_telemetry_spec :
    (∀ (n : ℕ) (line : List Char),
      extractTelemetryTemperature n line =
        (decodeTemperatureFields (pySplit ',' (pyStrip TERMINATOR line))).map
          (fun out => List.replicate (n - out.length) Val.nan ++ out)) ∧
    extractTelemetryTemperature 4
        "C00=0021.1234,C01=0021.1220,C02=9999.9990,C03=0020.9990\r\n".data =
      .ok [Val.num (211234 / 10000), Val.num (211220 / 10000), Val.nan,
        Val.num (209990 / 10000)] := by
  constructor
  · intro n line
    rw [extractTelemetryTemperature, tempLoop_eq_decodeFields]
    rcases decodeTemperatureFields (pySplit ',' (pyStrip TERMINATOR line)) with
      e | vs <;> simp [Except.map, padNan]
  · simp +decide [extractTelemetryTemperature, pyStrip, TERMINATOR, pySplit,
      tempLoop, DISCONNECTED_VALUE, parsePyFloat, parseUnsignedDecimal,
      digitsVal, padNan, Except.map]
    norm_num

/-- Every successful run of the decoding loop appends exactly one value per
item to the accumulator. -/
theorem tempLoop_ok_length (items : List (List Char)) :
    ∀ (acc out : List Val), tempLoop items acc = .ok out →
      out.length = acc.length + items.length := by
  induction items with
  | nil =>
    intro acc out h
    rw [tempLoop] at h
    cases h
    simp
  | cons item rest ih =>
    intro acc out h
    rw [tempLoop] at h
    split at h
    · rw [ih _ _ h]
      simp
      omega
    · split at h
      · split at h
        · rw [ih _ _ h]
          simp
          omega
        · split at h
          · rw [ih _ _ h]
            simp
            omega
          · cases h
      · cases h

/-- The length of a successfully extracted temperature vector: the channel
count padded up by the number of fields beyond it. -/
theorem extractTelemetryTemperature_ok_length (n : ℕ) (line : List Char)
    (out : List Val) (h : extractTelemetryTemperature n line = .ok out) :
    out.length = max n (pySplit ',' (pyStrip TERMINATOR line)).length := by
  rw [extractTelemetryTemperature] at h
  rcases htl : tempLoop (pySplit ',' (pyStrip TERMINATOR line)) [] with e | vs <;>
    rw [htl] at h
  · cases h
  · cases h
    have hlen := tempLoop_ok_length _ _ _ htl
    simp only [List.length_nil, Nat.zero_add] at hlen
    simp [padNan, hlen]
    omega

/-- C9 as stated is false: with two configured channels, a successfully read
line carrying three fields produces a telemetry message whose value vector
has length three, not the declared length two. -/
theorem telemetry_length_counterexample :
    (runStepTemperature "T" 2 (.ok threeFieldLine)).map
        (fun msgs => msgs.map fun msg => (msg.name, msg.values.length)) =
      .ok [("T", 3)] ∧ (3 : ℕ) ≠ 2 :=
  ⟨rfl, by decide⟩

/-- C9 amended: for every successful readline whose line decodes without
error, exactly one telemetry message is emitted and its first element is the
device name; the value vector has one entry per field, padded up to the
declared length, so it has exactly the declared length whenever the line
splits into at most `channels` fields — a longer line yields a longer
vector. -/
theorem run_step_temperature_amended (name : String) (n : ℕ) (line : List Char)
    (out : List Val) (h : extractTelemetryTemperature n line = .ok out) :
    runStepTemperature name n (.ok line) = .ok [⟨name, ResponseCode.ok, out⟩] ∧
    out.length = max n (pySplit ',' (pyStrip TERMINATOR line)).length ∧
    ((pySplit ',' (pyStrip TERMINATOR line)).length ≤ n → out.length = n) := by
  refine ⟨?_, extractTelemetryTemperature_ok_length n line out h, fun hle => ?_⟩
  · rw [runStepTemperature]
    simp [h]
  · rw [extractTelemetryTemperature_ok_length n line out h]
    omega

/-- Witness for C9 (amended) at a concrete input: a two-field line with four
configured channels is padded to length four and delivered in exactly one
message named `T`. -/
theorem run_step_temperature_amended_witness :
    runStepTemperature "T" 4 (.ok "a,b\r\n".data) =
      .ok [⟨"T", ResponseCode.ok, [Val.nan, Val.nan, Val.nan, Val.nan]⟩] ∧
    (4 : ℕ) = max 4 (pySplit ',' (pyStrip TERMINATOR "a,b\r\n".data)).length := by
  have h : extractTelemetryTemperature 4 "a,b\r\n".data =
      .ok [Val.nan, Val.nan, Val.nan, Val.nan] := rfl
  obtain ⟨h1, h2, h3⟩ := run_step_temperature_amended "T" 4 "a,b\r\n".data _ h
  exact ⟨h1, by rw [← h2]; rfl⟩

/-- A decimal digit character is not a comma. -/
theorem digit_ne_comma {c : Char} (h : c.isDigit = true) : c ≠ ',' := by
  rintro rfl
  exact absurd h (by decide)

/-- A decimal digit character is not the ETX character. -/
theorem digit_ne_etx {c : Char} (h : c.isDigit = true) : c ≠ '\x03' := by
  rintro rfl
  exact absurd h (by decide)

/-- A decimal digit character is not a plus sign. -/
theorem digit_ne_plus {c : Char} (h : c.isDigit = true) : c ≠ '+' := by
  rintro rfl
  exact absurd h (by decide)

/-- A decimal digit character is not a minus sign. -/
theorem digit_ne_minus {c : Char} (h : c.isDigit = true) : c ≠ '-' := by
  rintro rfl
  exact absurd h (by decide)

/-- A decimal digit character is not whitespace. -/
theorem digit_not_ws {c : Char} (h : c.isDigit = true) : c.isWhitespace = false := by
  cases hw : c.isWhitespace
  · rfl
  · have hc : ((c = ' ' ∨ c = '\t') ∨ c = '\r') ∨ c = '\n' := by
      simpa [Char.isWhitespace] using hw
    rcases hc with ((rfl | rfl) | rfl) | rfl <;> exact absurd h (by decide)

/-- Python `float` on a `\d{3}\.\d{2}` speed field always succeeds, with the
expected decimal value. -/
theorem parsePyFloat_ddd_dd (s1 s2 s3 s4 s5 : Char) (h1 : s1.isDigit = true)
    (h2 : s2.isDigit = true) (h3 : s3.isDigit = true) (h4 : s4.isDigit = true)
    (h5 : s5.isDigit = true) :
    parsePyFloat [s1, s2, s3, '.', s4, s5] =
      some ((digitsVal [s1, s2, s3] : ℚ) +
        (digitsVal [s4, s5] : ℚ) / (10 : ℚ) ^ 2) := by
  have w1 := digit_not_ws h1
  have w5 := digit_not_ws h5
  rw [parsePyFloat]
  simp +decide [digit_ne_plus h1, digit_ne_minus h1, parseUnsignedDecimal,
    List.takeWhile_cons, List.dropWhile_cons, w1, w5, h1, h2, h3, h4, h5]

/-- The recognizer accepts every well-formed frame, with or without the
extra trailing newline, and captures exactly the frame's groups. -/
theorem windParse_frame (m : WindM) (hm : WindWF m) (tail : List Char)
    (ht : tail = [] ∨ tail = ['\n']) :
    windParse (windFrameChars m ++ tail) = some m := by
  obtain ⟨dir, speed, status, csum⟩ := m
  obtain ⟨hdir, ⟨s1, s2, s3, s4, s5, hsp, hs1, hs2, hs3, hs4, hs5⟩,
    ⟨t1, t2, hst, ht1, ht2⟩, ⟨c1, c2, hcs, hc1, hc2⟩⟩ := hm
  simp only at hsp hst hcs
  subst hsp hst hcs
  rcases hdir with hdir | ⟨d1, d2, d3, hdir, hd1, hd2, hd3⟩
  · simp only at hdir
    subst hdir
    rcases ht with rfl | rfl <;>
      simp +decide [windFrameChars, windParse, windParseDir, windParseSpeed,
        windParseTail, hs1, hs2, hs3, hs4, hs5, ht1, ht2, hc1, hc2]
  · simp only at hdir
    subst hdir
    rcases ht with rfl | rfl <;>
      simp +decide [windFrameChars, windParse, windParseDir, windParseSpeed,
        windParseTail, digit_ne_comma hd1, hd1, hd2, hd3, hs1, hs2, hs3, hs4,
        hs5, ht1, ht2, hc1, hc2]

/-- On a well-formed frame, the characters strictly between `STX` and the
first `ETX` are exactly the rebuilt checksum string
`Q,{dir},{speed},M,{status},` that the source XORs. -/
theorem betweenStxEtx_frame (m : WindM) (hm : WindWF m) :
    betweenStxEtx (windFrameChars m) =
      'Q' :: ',' :: m.dir ++ [','] ++ m.speed ++ [',', 'M', ','] ++
        m.status ++ [','] := by
  obtain ⟨dir, speed, status, csum⟩ := m
  obtain ⟨hdir, ⟨s1, s2, s3, s4, s5, hsp, hs1, hs2, hs3, hs4, hs5⟩,
    ⟨t1, t2, hst, ht1, ht2⟩, ⟨c1, c2, hcs, hc1, hc2⟩⟩ := hm
  simp only at hsp hst hcs
  subst hsp hst hcs
  rcases hdir with hdir | ⟨d1, d2, d3, hdir, hd1, hd2, hd3⟩
  · simp only at hdir
    subst hdir
    simp +decide [betweenStxEtx, windFrameChars, STX, ETX, digit_ne_etx hs1,
      digit_ne_etx hs2, digit_ne_etx hs3, digit_ne_etx hs4, digit_ne_etx hs5,
      digit_ne_etx ht1, digit_ne_etx ht2]
  · simp only at hdir
    subst hdir
    simp +decide [betweenStxEtx, windFrameChars, STX, ETX, digit_ne_etx hd1,
      digit_ne_etx hd2, digit_ne_etx hd3, digit_ne_etx hs1, digit_ne_etx hs2,
      digit_ne_etx hs3, digit_ne_etx hs4, digit_ne_etx hs5, digit_ne_etx ht1,
      digit_ne_etx ht2]

/-- C4: for every line matching the Gill Polar-Continuous frame structure,
`extract_telemetry` compares the XOR of every character strictly between STX
and ETX with the two hexadecimal checksum digits after ETX: on mismatch it
returns `[NaN, NaN]`, on match `[speed, direction]` with the direction NaN
when the field is empty or the sentinel `999`; the frame with direction
`010`, speed `015.00` and correct checksum `1B` yields `[15.0, 10.0]`. -/
theorem wind_extract_matching_frame :
    (∀ (m : WindM) (tail : List Char), WindWF m → tail = [] ∨ tail = ['\n'] →
      extractTelemetryWind (windFrameChars m ++ tail) =
        (if xorChars (betweenStxEtx (windFrameChars m)) = hexVal m.csum
         then .ok [windSpeedVal m, windDirVal m]
         else .ok [Val.nan, Val.nan])) ∧
    extractTelemetryWind "\x02Q,010,015.00,M,00,\x031B\r\n".data =
      .ok [Val.num 15, Val.num 10] := by
  constructor
  · intro m tail hm ht
    have hpf := windParse_frame m hm tail ht
    have hbe := betweenStxEtx_frame m hm
    obtain ⟨s1, s2, s3, s4, s5, hsp, hs1, hs2, hs3, hs4, hs5⟩ := hm.2.1
    unfold extractTelemetryWind
    rw [hpf, hbe]
    by_cases hx : xorChars ('Q' :: ',' :: m.dir ++ [','] ++ m.speed ++
        [',', 'M', ','] ++ m.status ++ [',']) = hexVal m.csum
    · by_cases hsent : m.speed = DEFAULT_SPEED_VAL
      · simp [hx, hsent, windSpeedVal, windDirVal]
      · rw [hsp] at hsent
        simp [hx, hsent, windSpeedVal, windDirVal, hsp,
          parsePyFloat_ddd_dd s1 s2 s3 s4 s5 hs1 hs2 hs3 hs4 hs5]
    · simp only [List.append_assoc, List.cons_append, List.singleton_append,
        List.nil_append] at hx
      simp [hx]
  · simp +decide [extractTelemetryWind, windParse, windParseDir,
      windParseSpeed, windParseTail, xorChars, hexVal, hexDigitVal,
      parsePyFloat, parseUnsignedDecimal, digitsVal, DEFAULT_SPEED_VAL,
      DEFAULT_DIRECTION_VAL]

/-- Witness for C4: the theorem applied to the concrete example frame. -/
theorem wind_extract_matching_frame_witness :
    WindWF windExampleM ∧
    extractTelemetryWind (windFrameChars windExampleM ++ []) =
      (if xorChars (betweenStxEtx (windFrameChars windExampleM)) =
          hexVal windExampleM.csum
       then .ok [windSpeedVal windExampleM, windDirVal windExampleM]
       else .ok [Val.nan, Val.nan]) := by
  have hwf : WindWF windExampleM :=
    ⟨Or.inr ⟨'0', '1', '0', rfl, by decide, by decide, by decide⟩,
     ⟨'0', '1', '5', '0', '0', rfl, by decide, by decide, by decide, by decide,
       by decide⟩,
     ⟨'0', '0', rfl, by decide, by decide⟩,
     ⟨'1', 'B', rfl, by decide, by decide⟩⟩
  exact ⟨hwf, wind_extract_matching_frame.1 windExampleM [] hwf (Or.inl rfl)⟩

/-- Soundness of the tail recognizer: success pins down the input shape and
the captured status and checksum. -/
theorem windParseTail_sound {dir speed cs : List Char} {m : WindM}
    (h : windParseTail dir speed cs = some m) :
    ∃ t1 t2 c1 c2 tail,
      cs = 'M' :: ',' :: t1 :: t2 :: ',' :: '\x03' :: c1 :: c2 :: '\r' :: '\n' :: tail ∧
      m = ⟨dir, speed, [t1, t2], [c1, c2]⟩ ∧
      t1.isDigit ∧ t2.isDigit ∧ isHexDigit c1 ∧ isHexDigit c2 ∧
      (tail = [] ∨ tail = ['\n']) := by
  unfold windParseTail at h
  split at h
  · split at h
    · rename_i a b t1 t2 e f c1 c2 g hh tail hcond
      obtain ⟨rfl, rfl, ht1, ht2, rfl, rfl, hc1, hc2, rfl, rfl, htail⟩ := hcond
      injection h with h
      exact ⟨t1, t2, c1, c2, tail, rfl, h.symm, ht1, ht2, hc1, hc2, htail⟩
    · exact absurd h (by simp)
  · exact absurd h (by simp)

/-- Soundness of the speed recognizer. -/
theorem windParseSpeed_sound {dir cs : List Char} {m : WindM}
    (h : windParseSpeed dir cs = some m) :
    ∃ s1 s2 s3 s4 s5 rest,
      cs = s1 :: s2 :: s3 :: '.' :: s4 :: s5 :: ',' :: rest ∧
      s1.isDigit ∧ s2.isDigit ∧ s3.isDigit ∧ s4.isDigit ∧ s5.isDigit ∧
      windParseTail dir [s1, s2, s3, '.', s4, s5] rest = some m := by
  unfold windParseSpeed at h
  split at h
  · split at h
    · rename_i s1 s2 s3 d s4 s5 c rest hcond
      obtain ⟨hs1, hs2, hs3, rfl, hs4, hs5, rfl⟩ := hcond
      exact ⟨s1, s2, s3, s4, s5, rest, rfl, hs1, hs2, hs3, hs4, hs5, h⟩
    · exact absurd h (by simp)
  · exact absurd h (by simp)

/-- Soundness of the direction recognizer. -/
theorem windParseDir_sound {cs : List Char} {m : WindM}
    (h : windParseDir cs = some m) :
    ∃ dir rest,
      (dir = [] ∨ ∃ d1 d2 d3, dir = [d1, d2, d3] ∧
        d1.isDigit ∧ d2.isDigit ∧ d3.isDigit) ∧
      cs = dir ++ ',' :: rest ∧ windParseSpeed dir rest = some m := by
  unfold windParseDir at h
  split at h
  · rename_i d1 rest0
    split at h
    · rename_i hd1
      subst hd1
      exact ⟨[], rest0, Or.inl rfl, rfl, h⟩
    · rename_i hd1
      split at h
      · rename_i d2 d3 c rest2
        split at h
        · rename_i hcond
          obtain ⟨h1, h2, h3, rfl⟩ := hcond
          exact ⟨[d1, d2, d3], rest2, Or.inr ⟨d1, d2, d3, rfl, h1, h2, h3⟩,
            rfl, h⟩
        · exact absurd h (by simp)
      · exact absurd h (by simp)
  · exact absurd h (by simp)

/-- Soundness of the full recognizer: a successful parse means the input is
the rendered frame of the captured groups, optionally followed by one extra
newline, and the groups are well formed. -/
theorem windParse_sound {cs : List Char} {m : WindM}
    (h : windParse cs = some m) :
    WindWF m ∧ (cs = windFrameChars m ∨ cs = windFrameChars m ++ ['\n']) := by
  unfold windParse at h
  split at h
  · split at h
    · rename_i a b c rest hcond
      obtain ⟨rfl, rfl, rfl⟩ := hcond
      obtain ⟨dir, rest2, hdir, rfl, hsp⟩ := windParseDir_sound h
      obtain ⟨s1, s2, s3, s4, s5, rest3, rfl, hs1, hs2, hs3, hs4, hs5, htl⟩ :=
        windParseSpeed_sound hsp
      obtain ⟨t1, t2, c1, c2, tail, rfl, rfl, ht1, ht2, hc1, hc2, htail⟩ :=
        windParseTail_sound htl
      refine ⟨⟨hdir, ⟨s1, s2, s3, s4, s5, rfl, hs1, hs2, hs3, hs4, hs5⟩,
        ⟨t1, t2, rfl, ht1, ht2⟩, ⟨c1, c2, rfl, hc1, hc2⟩⟩, ?_⟩
      rcases htail with rfl | rfl
      · left
        simp [windFrameChars]
      · right
        simp [windFrameChars]
    · exact absurd h (by simp)
  · exact absurd h (by simp)

/-- C5: every input that neither matches the frame regex nor equals the bare
terminator raises a decode error; the bare terminator alone returns
`[NaN, NaN]`. -/
theorem wind_extract_unparsable_raises :
    (∀ line : List Char, ¬WindMatches line → line ≠ TERMINATOR →
      extractTelemetryWind line = .error "Received an unparsable line") ∧
    extractTelemetryWind TERMINATOR = .ok [Val.nan, Val.nan] := by
  constructor
  · intro line h1 h2
    rcases hp : windParse line with _ | m
    · unfold extractTelemetryWind
      rw [hp, if_neg h2]
    · obtain ⟨hwf, hcs⟩ := windParse_sound hp
      exact absurd ⟨m, hwf, hcs⟩ h1
  · rfl

/-- Witness for C5: a plain text line matches nothing (every frame starts
with the STX character) and raises; the terminator input is also checked. -/
theorem wind_extract_unparsable_raises_witness :
    ¬WindMatches "hello\r\n".data ∧
    extractTelemetryWind "hello\r\n".data = .error "Received an unparsable line" ∧
    extractTelemetryWind TERMINATOR = .ok [Val.nan, Val.nan] := by
  have h1 : ¬WindMatches "hello\r\n".data := by
    rintro ⟨m, -, hcs | hcs⟩ <;>
      · have hh := congrArg List.head? hcs
        simp [windFrameChars] at hh
  exact ⟨h1, (wind_extract_unparsable_raises.1 "hello\r\n".data h1 (by decide)),
    wind_extract_unparsable_raises.2⟩
